import Mathlib

/-!
Verification of the lingerie-shop catalog service (`src/main.py`, `src/schemas.py`)
against its design specification.

The source is a small FastAPI application over a MongoDB-like document store.
We shallowly embed the Python values that flow through the handlers as an
inductive type `PyVal`, raw store documents as association lists `Doc`,
and transcribe the handler bodies (`list_products`, `seed_sample_products`,
`create_product`, `test_database`) as Lean functions.

The store accessor (`database.py`: `db`, `create_document`, `get_documents`)
is not part of the repository sources; where needed it is modelled from the
spec (see the doc comments marked "Modelled from the spec").

Python builtins (`float`, `str`, `bool`, iteration) and pydantic field
validation are modelled by total Lean functions returning `Option` where the
Python operation can raise.
-/

/-- A Python runtime value, covering the shapes that flow through the
handlers: `None`, booleans, ints, floats (modelled as rationals), strings,
lists, and store-generated object identifiers. -/
inductive PyVal : Type where
  | vnone : PyVal
  | vbool : Bool → PyVal
  | vint : Int → PyVal
  | vfloat : ℚ → PyVal
  | vstr : String → PyVal
  | vlist : List PyVal → PyVal
  | vid : Nat → PyVal

mutual

/-- Value equality on Python values, as used by the store's equality
filters (e.g. Mongo `{"category": c}` matching). -/
def PyVal.beq : PyVal → PyVal → Bool
  | .vnone, .vnone => true
  | .vbool a, .vbool b => a == b
  | .vint a, .vint b => a == b
  | .vfloat a, .vfloat b => a == b
  | .vstr a, .vstr b => a == b
  | .vlist xs, .vlist ys => PyVal.beqList xs ys
  | .vid a, .vid b => a == b
  | _, _ => false

/-- Elementwise `PyVal.beq` on lists. -/
def PyVal.beqList : List PyVal → List PyVal → Bool
  | [], [] => true
  | x :: xs, y :: ys => PyVal.beq x y && PyVal.beqList xs ys
  | _, _ => false

end

/-- A raw store document / Python dict: an association list from string keys
to Python values (first binding wins, as in a dict). -/
abbrev Doc : Type := List (String × PyVal)

/-- Python `d.get(k)` without a default: `some v` if the key is present,
else `none` (Python returns `None`; absence is distinguished at use
sites). -/
def Doc.get? (d : Doc) (k : String) : Option PyVal :=
  (List.find? (fun p => p.1 = k) d).map (fun p => p.2)

/-- Python `d.get(k, dflt)`: the stored value if the key is present, else the
default. -/
def Doc.getD (d : Doc) (k : String) (dflt : PyVal) : PyVal :=
  (d.get? k).getD dflt

/-- Python `str(v)` rendering, as used on `_id` and on sequence elements.
`str` of a string is the identity; `None`, booleans and numbers render as in
Python; an ObjectId renders as its (opaque) decimal text; `str` of a list is
a bracketed rendering (its exact text is never relied upon by any claim). -/
def pyStr : PyVal → String
  | .vnone => "None"
  | .vbool true => "True"
  | .vbool false => "False"
  | .vint n => toString n
  | .vfloat q => toString q.num ++ "/" ++ toString q.den
  | .vstr s => s
  | .vlist _ => "[...]"
  | .vid n => toString n

/-- Python truthiness, as used by `bool(...)` and by `if existing:` /
`if category:`. -/
def pyBool : PyVal → Bool
  | .vnone => false
  | .vbool b => b
  | .vint n => n ≠ 0
  | .vfloat q => q ≠ 0
  | .vstr s => s ≠ ""
  | .vlist xs => !xs.isEmpty
  | .vid _ => true

/-- The natural number denoted by a list of decimal digit characters. -/
def digitsToNat (cs : List Char) : Nat :=
  cs.foldl (fun acc c => 10 * acc + (c.toNat - Char.toNat '0')) 0

/-- Parse a plain decimal literal (optional sign, digits, optional fractional
part) into a rational, modelling the strings accepted by Python `float(...)`
on the shapes relevant here; other strings are rejected. -/
def parseDecimal (s : String) : Option ℚ :=
  let core (t : List Char) : Option ℚ :=
    match t.span (fun c => c.isDigit) with
    | (intPart, rest) =>
      match rest with
      | [] =>
        if intPart.isEmpty then none
        else some ((digitsToNat intPart : ℚ))
      | '.' :: frac =>
        if (intPart.isEmpty && frac.isEmpty) || !frac.all (fun c => c.isDigit) then none
        else
          some ((digitsToNat intPart : ℚ) +
            (digitsToNat frac : ℚ) / ((10 : ℚ) ^ frac.length))
      | _ => none
  match s.data with
  | '-' :: t => (core t).map (fun q => -q)
  | '+' :: t => core t
  | t => core t

/-- Python `float(v)`: succeeds on floats, ints, booleans and numeric strings;
raises (here: `none`) on `None`, lists, non-numeric strings and identifiers. -/
def pyFloat? : PyVal → Option ℚ
  | .vfloat q => some q
  | .vint n => some (n : ℚ)
  | .vbool true => some 1
  | .vbool false => some 0
  | .vstr s => parseDecimal s
  | _ => none

/-- Python iteration `[... for x in v]`: lists iterate their elements,
strings iterate their characters (as one-character strings); other values
raise (here: `none`). -/
def pyIter? : PyVal → Option (List PyVal)
  | .vlist xs => some xs
  | .vstr s => some (s.data.map (fun c => PyVal.vstr (String.mk [c])))
  | _ => none

/-- pydantic validation of a required `str` field (`title`, `category` of
`ProductOut`): accepts a string, rejects `None` and any other shape. -/
def validStr? : PyVal → Option String
  | .vstr s => some s
  | _ => none

/-- pydantic validation of an `Optional[str]` field (`description`):
`None` is accepted as absent, a string as itself; other shapes are
rejected. -/
def validOptStr? : PyVal → Option (Option String)
  | .vnone => some none
  | .vstr s => some (some s)
  | _ => none

/-- pydantic validation of an `Optional[float]` field (`rating` of
`ProductOut`): `None` is absent; floats, ints and numeric strings coerce to
a number; other shapes are rejected. -/
def validOptFloat? : PyVal → Option (Option ℚ)
  | .vnone => some none
  | .vfloat q => some (some q)
  | .vint n => some (some (n : ℚ))
  | .vstr s => (parseDecimal s).map (fun q => some q)
  | _ => none

/-- The rating argument of the `ProductOut` constructions, transcribing
`d.get("rating") if d.get("rating") is not None else None` followed by the
pydantic validation of the `Optional[float]` field: a null (or defaulted)
rating is absent, any other value is validated. -/
def ratingOf : PyVal → Option (Option ℚ)
  | .vnone => some none
  | v => validOptFloat? v

/-- The output contract `ProductOut` (src/main.py lines 65-77): every field
fully typed. -/
structure ProductOut : Type where
  id : String
  title : String
  description : Option String
  price : ℚ
  category : String
  images : List String
  colors : List String
  sizes : List String
  tags : List String
  in_stock : Bool
  is_featured : Bool
  rating : Option ℚ
deriving DecidableEq, Repr

/-- The record-to-`ProductOut` conversion of `list_products`
(src/main.py lines 103-116): field-by-field `d.get(...)` with defaults,
Python coercions (`float`, `str`, `bool`), then pydantic validation of the
`ProductOut` fields. `none` models the Python call raising
(a `TypeError`/`ValueError` from a coercion or a pydantic
`ValidationError`). The `rating` line transcribes
`d.get("rating") if d.get("rating") is not None else None`. -/
def normalizeDoc_list (d : Doc) : Option ProductOut := do
  let title ← validStr? (d.getD "title" .vnone)
  let description ← validOptStr? (d.getD "description" .vnone)
  let price ← pyFloat? (d.getD "price" (.vint 0))
  let category ← validStr? (d.getD "category" .vnone)
  let images ← pyIter? (d.getD "images" (.vlist []))
  let colors ← pyIter? (d.getD "colors" (.vlist []))
  let sizes ← pyIter? (d.getD "sizes" (.vlist []))
  let tags ← pyIter? (d.getD "tags" (.vlist []))
  let rating ← ratingOf (d.getD "rating" .vnone)
  some {
    id := pyStr (d.getD "_id" .vnone)
    title := title
    description := description
    price := price
    category := category
    images := images.map pyStr
    colors := colors.map pyStr
    sizes := sizes.map pyStr
    tags := tags.map pyStr
    in_stock := pyBool (d.getD "in_stock" (.vbool true))
    is_featured := pyBool (d.getD "is_featured" (.vbool false))
    rating := rating }

/-- The record-to-`ProductOut` conversion in the existing-records branch of
`seed_sample_products` (src/main.py lines 132-145); transcribed from that
comprehension, which repeats the conversion of `list_products` verbatim. -/
def normalizeDoc_seed_existing (d : Doc) : Option ProductOut := do
  let title ← validStr? (d.getD "title" .vnone)
  let description ← validOptStr? (d.getD "description" .vnone)
  let price ← pyFloat? (d.getD "price" (.vint 0))
  let category ← validStr? (d.getD "category" .vnone)
  let images ← pyIter? (d.getD "images" (.vlist []))
  let colors ← pyIter? (d.getD "colors" (.vlist []))
  let sizes ← pyIter? (d.getD "sizes" (.vlist []))
  let tags ← pyIter? (d.getD "tags" (.vlist []))
  let rating ← ratingOf (d.getD "rating" .vnone)
  some {
    id := pyStr (d.getD "_id" .vnone)
    title := title
    description := description
    price := price
    category := category
    images := images.map pyStr
    colors := colors.map pyStr
    sizes := sizes.map pyStr
    tags := tags.map pyStr
    in_stock := pyBool (d.getD "in_stock" (.vbool true))
    is_featured := pyBool (d.getD "is_featured" (.vbool false))
    rating := rating }

/-- The record-to-`ProductOut` conversion in the after-seeding branch of
`seed_sample_products` (src/main.py lines 195-208); transcribed from that
comprehension, which again repeats the conversion of `list_products`
verbatim. -/
def normalizeDoc_seed_after (d : Doc) : Option ProductOut := do
  let title ← validStr? (d.getD "title" .vnone)
  let description ← validOptStr? (d.getD "description" .vnone)
  let price ← pyFloat? (d.getD "price" (.vint 0))
  let category ← validStr? (d.getD "category" .vnone)
  let images ← pyIter? (d.getD "images" (.vlist []))
  let colors ← pyIter? (d.getD "colors" (.vlist []))
  let sizes ← pyIter? (d.getD "sizes" (.vlist []))
  let tags ← pyIter? (d.getD "tags" (.vlist []))
  let rating ← ratingOf (d.getD "rating" .vnone)
  some {
    id := pyStr (d.getD "_id" .vnone)
    title := title
    description := description
    price := price
    category := category
    images := images.map pyStr
    colors := colors.map pyStr
    sizes := sizes.map pyStr
    tags := tags.map pyStr
    in_stock := pyBool (d.getD "in_stock" (.vbool true))
    is_featured := pyBool (d.getD "is_featured" (.vbool false))
    rating := rating }


/-- Modelled from the spec: the document store behind `database.py` (which is
not among the repository sources). Its state is the `lingerieproduct`
collection's documents in store order, a counter generating fresh object
identifiers, and an optional failure mode: when `failMsg` is set, every store
operation raises with that message ("connection lost, query error"). -/
structure Store : Type where
  docs : List Doc
  nextId : Nat
  failMsg : Option String

/-- Modelled from the spec: whether a document matches an equality-filter
mapping — every key of the filter must be present in the document with an
equal value. -/
def matchesFilter (filt : Doc) (d : Doc) : Bool :=
  filt.all (fun kv => match Doc.get? d kv.1 with
    | some v => PyVal.beq v kv.2
    | none => false)

/-- Modelled from the spec: `get_documents(collection, filter, limit?)` of
`database.py` — "find(collection, filter, limit?) -> sequence of raw
records": the documents matching the filter, in store order, truncated to
`limit` when given; raises when the store is failing. -/
def get_documents (s : Store) (filt : Doc) (limit : Option Nat) :
    Except String (List Doc) :=
  match s.failMsg with
  | some e => .error e
  | none =>
    let ms := s.docs.filter (matchesFilter filt)
    .ok (match limit with
      | some n => ms.take n
      | none => ms)

/-- Modelled from the spec: `create_document(collection, record)` of
`database.py` — "insert(collection, record) -> identifier": appends the
record, stamped with a fresh `_id`, and returns the generated identifier;
raises when the store is failing. -/
def create_document (s : Store) (d : Doc) : Except String (Nat × Store) :=
  match s.failMsg with
  | some e => .error e
  | none =>
    .ok (s.nextId,
      { docs := s.docs ++ [("_id", PyVal.vid s.nextId) :: d]
        nextId := s.nextId + 1
        failMsg := none })

/-- An HTTP error response (FastAPI `HTTPException`): status code and
detail string. -/
structure HTTPError : Type where
  status : Nat
  detail : String
deriving DecidableEq, Repr

/-- Stand-in for the (opaque) message of a pydantic `ValidationError`
raised while building a `ProductOut`; no claim depends on its text. -/
def validationDetail : String := "validation error"

/-- The conversion loops of the handlers (`for d in docs: results.append(...)`
and the two comprehensions): convert the documents in order; the first
conversion that raises propagates its exception (`none`). -/
def convertAll (f : Doc → Option ProductOut) : List Doc → Option (List ProductOut)
  | [] => some []
  | d :: ds =>
    match f d with
    | none => none
    | some p =>
      match convertAll f ds with
      | none => none
      | some ps => some (p :: ps)

/-- The query-filter construction of `list_products` (src/main.py lines
93-97): start from an empty dict; `if category:` (Python truthiness, so a
present empty string adds nothing) add an equality condition on `category`;
`if featured is not None:` add an equality condition on `is_featured`. -/
def buildFilter (category : Option String) (featured : Option Bool) : Doc :=
  (match category with
   | some c => if c = "" then [] else [("category", PyVal.vstr c)]
   | none => []) ++
  (match featured with
   | some b => [("is_featured", PyVal.vbool b)]
   | none => [])

/-- The `GET /api/products` handler `list_products` (src/main.py lines
90-119): build the filter, fetch the matching documents, convert each to a
`ProductOut`; any exception in the `try` block (store failure or a
conversion raising) becomes `HTTPException(500, str(e))`. -/
def list_products (category : Option String) (featured : Option Bool)
    (s : Store) : Except HTTPError (List ProductOut) :=
  let filter_dict := buildFilter category featured
  match get_documents s filter_dict none with
  | .error e => .error ⟨500, e⟩
  | .ok docs =>
    match convertAll normalizeDoc_list docs with
    | some results => .ok results
    | none => .error ⟨500, validationDetail⟩

/-- The first demo record of `seed_sample_products` (src/main.py lines
149-162), literally transcribed. -/
def demoBra : Doc :=
  [ ("title", PyVal.vstr "Silk Embrace Bra"),
      ("description", PyVal.vstr "Luxurious silk with delicate lace trim."),
      ("price", PyVal.vfloat 69.0),
      ("category", PyVal.vstr "bras"),
      ("images", PyVal.vlist
        [PyVal.vstr "https://images.unsplash.com/photo-1541099649105-f69ad21f3246?q=80&w=1200&auto=format&fit=crop"]),
      ("colors", PyVal.vlist [PyVal.vstr "black", PyVal.vstr "blush", PyVal.vstr "ivory"]),
      ("sizes", PyVal.vlist [PyVal.vstr "32B", PyVal.vstr "34C", PyVal.vstr "36D"]),
      ("tags", PyVal.vlist [PyVal.vstr "silk", PyVal.vstr "lace", PyVal.vstr "underwire"]),
    ("is_featured", PyVal.vbool true),
    ("rating", PyVal.vfloat 4.7) ]

/-- The second demo record (src/main.py lines 163-176), literally
transcribed. -/
def demoSet : Doc :=
  [ ("title", PyVal.vstr "Velvet Night Set"),
      ("description", PyVal.vstr "Two-piece velvet lounge set."),
      ("price", PyVal.vfloat 89.0),
      ("category", PyVal.vstr "sets"),
      ("images", PyVal.vlist
        [PyVal.vstr "https://images.unsplash.com/photo-1515378791036-0648a3ef77b2?q=80&w=1200&auto=format&fit=crop"]),
      ("colors", PyVal.vlist [PyVal.vstr "wine", PyVal.vstr "emerald"]),
      ("sizes", PyVal.vlist [PyVal.vstr "S", PyVal.vstr "M", PyVal.vstr "L"]),
      ("tags", PyVal.vlist [PyVal.vstr "set", PyVal.vstr "velvet", PyVal.vstr "lounge"]),
    ("is_featured", PyVal.vbool true),
    ("rating", PyVal.vfloat 4.5) ]

/-- The third demo record (src/main.py lines 177-189), literally
transcribed; it has no `is_featured` and no `in_stock` key. -/
def demoBrief : Doc :=
  [ ("title", PyVal.vstr "Everyday Comfort Brief"),
      ("description", PyVal.vstr "Breathable cotton mid-rise brief."),
      ("price", PyVal.vfloat 18.0),
      ("category", PyVal.vstr "panties"),
      ("images", PyVal.vlist
        [PyVal.vstr "https://images.unsplash.com/photo-1516641392179-434d6d130a7b?q=80&w=1200&auto=format&fit=crop"]),
      ("colors", PyVal.vlist [PyVal.vstr "nude", PyVal.vstr "black", PyVal.vstr "white"]),
      ("sizes", PyVal.vlist [PyVal.vstr "S", PyVal.vstr "M", PyVal.vstr "L", PyVal.vstr "XL"]),
      ("tags", PyVal.vlist [PyVal.vstr "cotton", PyVal.vstr "comfort"]),
    ("rating", PyVal.vfloat 4.2) ]

/-- The demo list of `seed_sample_products` (src/main.py lines 148-190). -/
def demoProducts : List Doc := [demoBra, demoSet, demoBrief]

/-- The seeding loop `for item in demo: create_document(collection, item)`
(src/main.py lines 191-192), threading the store; the first raising insert
propagates its exception. -/
def insertAll (s : Store) : List Doc → Except String Store
  | [] => .ok s
  | d :: rest =>
    match create_document s d with
    | .error e => .error e
    | .ok (_, s2) => insertAll s2 rest

/-- The `GET /api/products/sample` handler `seed_sample_products`
(src/main.py lines 122-211): probe for one existing document; if any exists
(`if existing:` — list truthiness) return up to 12 existing documents
converted; otherwise insert the three demo records, re-query up to 12 and
return them converted. Any exception becomes `HTTPException(500, str(e))`;
the resulting store state is returned alongside. -/
def seed_sample_products (s : Store) :
    Except HTTPError (List ProductOut) × Store :=
  match get_documents s [] (some 1) with
  | .error e => (.error ⟨500, e⟩, s)
  | .ok existing =>
    if !existing.isEmpty then
      match get_documents s [] (some 12) with
      | .error e => (.error ⟨500, e⟩, s)
      | .ok docs =>
        (match convertAll normalizeDoc_seed_existing docs with
         | some results => .ok results
         | none => .error ⟨500, validationDetail⟩, s)
    else
      match insertAll s demoProducts with
      | .error e => (.error ⟨500, e⟩, s)
      | .ok s2 =>
        match get_documents s2 [] (some 12) with
        | .error e => (.error ⟨500, e⟩, s2)
        | .ok docs =>
          (match convertAll normalizeDoc_seed_after docs with
           | some results => .ok results
           | none => .error ⟨500, validationDetail⟩, s2)

/-- pydantic validation of a required `float` field value: floats, ints and
numeric strings coerce to a number; other shapes are rejected. -/
def validFloat? : PyVal → Option ℚ
  | .vfloat q => some q
  | .vint n => some (n : ℚ)
  | .vstr s => parseDecimal s
  | _ => none

/-- pydantic `HttpUrl` validity, modelled as: the text has an `http` or
`https` scheme (the full URL grammar is irrelevant to every claim). -/
def isHttpUrl (s : String) : Bool :=
  s.startsWith "http://" || s.startsWith "https://"

/-- The request model `LingerieProduct` (src/schemas.py lines 30-45):
the persisted product minus the identifier, fully typed. -/
structure LingerieProduct : Type where
  title : String
  description : Option String
  price : ℚ
  category : String
  images : List String
  colors : List String
  sizes : List String
  tags : List String
  in_stock : Bool
  is_featured : Bool
  rating : Option ℚ
deriving DecidableEq, Repr

/-- Validation of a required-text field of `LingerieProduct` (`title`,
`category`): absent or non-text is rejected. -/
def reqStrField (body : Doc) (k : String) : Option String :=
  match body.get? k with
  | some v => validStr? v
  | none => none

/-- Validation of the optional-text field `description`: absent means
`none`, otherwise a string or null. -/
def optStrField (body : Doc) (k : String) : Option (Option String) :=
  match body.get? k with
  | some v => validOptStr? v
  | none => some none

/-- Validation of the required `price` field with its `ge=0` constraint:
absent or non-numeric is rejected, as is a negative value. -/
def priceField (body : Doc) : Option ℚ :=
  match body.get? "price" with
  | some v => do
      let q ← validFloat? v
      if 0 ≤ q then some q else none
  | none => none

/-- Validation of the `images` field (`List[HttpUrl]`, default empty). -/
def urlListField (body : Doc) : Option (List String) :=
  match body.get? "images" with
  | some (.vlist xs) =>
      xs.mapM (fun v => match v with
        | .vstr s => if isHttpUrl s then some s else none
        | _ => none)
  | some _ => none
  | none => some []

/-- Validation of a `List[str]` field with default empty. -/
def strListField (body : Doc) (k : String) : Option (List String) :=
  match body.get? k with
  | some (.vlist xs) => xs.mapM validStr?
  | some _ => none
  | none => some []

/-- Validation of a boolean field with a default. -/
def boolField (body : Doc) (k : String) (dflt : Bool) : Option Bool :=
  match body.get? k with
  | some (.vbool b) => some b
  | some _ => none
  | none => some dflt

/-- Validation of the optional `rating` field with its `ge=0, le=5`
constraints. -/
def ratingField (body : Doc) : Option (Option ℚ) :=
  match body.get? "rating" with
  | some .vnone => some none
  | some v => do
      let q ← validFloat? v
      if 0 ≤ q ∧ q ≤ 5 then some (some q) else none
  | none => some none

/-- pydantic validation of a request body against `LingerieProduct`
(src/schemas.py lines 30-45), field by field. `none` models a
`ValidationError`. -/
def validateLingerieProduct (body : Doc) : Option LingerieProduct := do
  let title ← reqStrField body "title"
  let description ← optStrField body "description"
  let price ← priceField body
  let category ← reqStrField body "category"
  let images ← urlListField body
  let colors ← strListField body "colors"
  let sizes ← strListField body "sizes"
  let tags ← strListField body "tags"
  let in_stock ← boolField body "in_stock" true
  let is_featured ← boolField body "is_featured" false
  let rating ← ratingField body
  some {
    title := title
    description := description
    price := price
    category := category
    images := images
    colors := colors
    sizes := sizes
    tags := tags
    in_stock := in_stock
    is_featured := is_featured
    rating := rating }

/-- Serialization of a validated `LingerieProduct` back to a store record,
as inserted by `create_document(collection, product)`. -/
def productToDoc (p : LingerieProduct) : Doc :=
  [ ("title", PyVal.vstr p.title),
    ("description", match p.description with
      | some s => PyVal.vstr s
      | none => PyVal.vnone),
    ("price", PyVal.vfloat p.price),
    ("category", PyVal.vstr p.category),
    ("images", PyVal.vlist (p.images.map PyVal.vstr)),
    ("colors", PyVal.vlist (p.colors.map PyVal.vstr)),
    ("sizes", PyVal.vlist (p.sizes.map PyVal.vstr)),
    ("tags", PyVal.vlist (p.tags.map PyVal.vstr)),
    ("in_stock", PyVal.vbool p.in_stock),
    ("is_featured", PyVal.vbool p.is_featured),
    ("rating", match p.rating with
      | some q => PyVal.vfloat q
      | none => PyVal.vnone) ]

/-- The `POST /api/products` endpoint (src/main.py lines 80-87) together
with the HTTP surface's request validation: the body is validated against
`LingerieProduct` before the handler runs — a validation failure is a
client error (422) and the handler (and hence the store) is never reached;
a valid product is inserted via `create_document`, returning the generated
identifier, with a store failure surfaced as
`HTTPException(500, str(e))`. -/
def create_product (body : Doc) (s : Store) : Except HTTPError Nat × Store :=
  match validateLingerieProduct body with
  | none => (.error ⟨422, validationDetail⟩, s)
  | some product =>
    match create_document s (productToDoc product) with
    | .error e => (.error ⟨500, e⟩, s)
    | .ok (inserted_id, s2) => (.ok inserted_id, s2)

/-- Modelled from the spec: the observable state behind `database.py`'s
module global `db` and the environment, as exercised by `GET /test` —
whether `db` is non-`None`, and the result of `db.list_collection_names()`
(which may raise); plus whether the two connection settings are set. -/
structure TestEnv : Type where
  dbAvailable : Bool
  listCollections : Except String (List String)
  envUrlSet : Bool
  envNameSet : Bool

/-- The diagnostic payload of `GET /test` (src/main.py lines 30-37):
all fields the handler fills in. -/
structure TestResponse : Type where
  backend : String
  database : String
  database_url : String
  database_name : String
  connection_status : String
  collections : List String
deriving DecidableEq, Repr

/-- The `GET /test` handler `test_database` (src/main.py lines 27-61):
if `db` is available, report it connected and list up to the first 10
collection names; a raise from `list_collection_names` degrades to the
string `"⚠️  Connected but Error: "` followed by the first 50 characters of
the message, leaving the collection list empty; an unavailable `db`
degrades to `"⚠️  Available but not initialized"`. The two `_url` / `_name`
indicators are finally overwritten from the environment (lines 58-59).
The handler always returns a payload. -/
def test_database (env : TestEnv) : TestResponse :=
  let statusTriple :=
    if env.dbAvailable then
      match env.listCollections with
      | .ok cs => ("✅ Connected & Working", "Connected", cs.take 10)
      | .error e =>
        ("⚠️  Connected but Error: " ++ e.take 50, "Connected", ([] : List String))
    else
      ("⚠️  Available but not initialized", "Not Connected", ([] : List String))
  { backend := "✅ Running"
    database := statusTriple.1
    database_url := if env.envUrlSet then "✅ Set" else "❌ Not Set"
    database_name := if env.envNameSet then "✅ Set" else "❌ Not Set"
    connection_status := statusTriple.2.1
    collections := statusTriple.2.2 }

/-- The number of outputs of a successful conversion equals the number of
input documents. -/
theorem convertAll_length (f : Doc → Option ProductOut) :
    ∀ ds ps, convertAll f ds = some ps → ps.length = ds.length := by
  intro ds
  induction ds with
  | nil => intro ps h; simp [convertAll] at h; simp [h.symm]
  | cons d ds ih =>
    intro ps h
    simp only [convertAll] at h
    cases hf : f d with
    | none => rw [hf] at h; simp at h
    | some p =>
      rw [hf] at h
      cases hrec : convertAll f ds with
      | none => rw [hrec] at h; simp at h
      | some qs =>
        rw [hrec] at h
        simp at h
        rw [h.symm]
        simp [ih qs hrec]

/-- C10: the record-to-Product conversion of the listing handler and the
conversions in the two branches of the seeding handler are the same
function — all three code paths produce equal outputs on every raw
record. -/
theorem normalization_paths_agree (d : Doc) :
    normalizeDoc_list d = normalizeDoc_seed_existing d ∧
    normalizeDoc_seed_existing d = normalizeDoc_seed_after d :=
  ⟨rfl, rfl⟩

/-- C4: the filter builder adds an equality condition on `category` exactly
when the category parameter is present and non-empty, adds an equality
condition on `is_featured` exactly when the featured parameter is present
(including explicit false), and produces the empty (match-all) filter when
neither parameter is present. -/
theorem buildFilter_spec (category : Option String) (featured : Option Bool) :
    (∀ c, category = some c → c ≠ "" →
      Doc.get? (buildFilter category featured) "category" = some (.vstr c)) ∧
    (Doc.get? (buildFilter category featured) "category" ≠ none →
      ∃ c, category = some c ∧ c ≠ "") ∧
    (∀ b, featured = some b →
      Doc.get? (buildFilter category featured) "is_featured" = some (.vbool b)) ∧
    (featured = none →
      Doc.get? (buildFilter category featured) "is_featured" = none) ∧
    (category = none → featured = none → buildFilter category featured = []) := by
  rcases category with _ | c <;> rcases featured with _ | b
  · simp [buildFilter, Doc.get?]
  · simp [buildFilter, Doc.get?, List.find?]
  · by_cases hc : c = "" <;> simp [buildFilter, Doc.get?, List.find?, hc]
  · by_cases hc : c = "" <;> simp [buildFilter, Doc.get?, List.find?, hc]

/-- Witness for C4 at concrete parameters. -/
theorem buildFilter_spec_witness :
    Doc.get? (buildFilter (some "bras") (some false)) "category" =
      some (.vstr "bras") ∧
    Doc.get? (buildFilter (some "bras") (some false)) "is_featured" =
      some (.vbool false) ∧
    buildFilter none none = [] :=
  ⟨(buildFilter_spec (some "bras") (some false)).1 "bras" rfl (by decide),
   (buildFilter_spec (some "bras") (some false)).2.2.1 false rfl,
   (buildFilter_spec none none).2.2.2.2 rfl rfl⟩

/-- Counterexample to C1: normalization is not total. A record with a
present-but-null `price` makes `float(d.get("price", 0))` raise
(`float(None)` is a `TypeError`), and the empty record fails because the
missing `title` (i.e. `None`) is rejected by the required `title` field of
`ProductOut`. -/
theorem normalize_not_total :
    normalizeDoc_list
      [("title", PyVal.vstr "t"), ("category", PyVal.vstr "c"),
       ("price", PyVal.vnone)] = none ∧
    normalizeDoc_list [] = none := by
  constructor <;> decide

/-- C1 (amended): normalization succeeds on every record whose `title` and
`category` are present strings, whose `description` is absent, null or a
string, whose `price` is absent or float-coercible, whose four sequence
fields are absent or lists, and whose `rating` is absent, null or coercible
to a number; on arbitrary records it may fail (see the counterexample). -/
theorem normalize_succeeds_on_wellformed (d : Doc)
    (ht : ∃ t, d.get? "title" = some (.vstr t))
    (hde : d.get? "description" = none ∨ d.get? "description" = some .vnone ∨
      ∃ s, d.get? "description" = some (.vstr s))
    (hp : d.get? "price" = none ∨
      ∃ v q, d.get? "price" = some v ∧ pyFloat? v = some q)
    (hc : ∃ c, d.get? "category" = some (.vstr c))
    (him : d.get? "images" = none ∨ ∃ xs, d.get? "images" = some (.vlist xs))
    (hco : d.get? "colors" = none ∨ ∃ xs, d.get? "colors" = some (.vlist xs))
    (hsi : d.get? "sizes" = none ∨ ∃ xs, d.get? "sizes" = some (.vlist xs))
    (hta : d.get? "tags" = none ∨ ∃ xs, d.get? "tags" = some (.vlist xs))
    (hr : d.get? "rating" = none ∨ d.get? "rating" = some .vnone ∨
      ∃ v q, d.get? "rating" = some v ∧ validOptFloat? v = some (some q)) :
    (normalizeDoc_list d).isSome = true := by
  obtain ⟨t, ht⟩ := ht
  obtain ⟨c, hc⟩ := hc
  have Ht : validStr? ((d.get? "title").getD PyVal.vnone) = some t := by
    rw [ht]; rfl
  have Hc : validStr? ((d.get? "category").getD PyVal.vnone) = some c := by
    rw [hc]; rfl
  have Hde : ∃ x, validOptStr? ((d.get? "description").getD PyVal.vnone) = some x := by
    rcases hde with h | h | ⟨s, h⟩ <;> rw [h] <;> exact ⟨_, rfl⟩
  have Hp : ∃ x, pyFloat? ((d.get? "price").getD (PyVal.vint 0)) = some x := by
    rcases hp with h | ⟨v, q, h, hq⟩
    · rw [h]; exact ⟨_, rfl⟩
    · rw [h]; exact ⟨q, hq⟩
  have Him : ∃ x, pyIter? ((d.get? "images").getD (PyVal.vlist [])) = some x := by
    rcases him with h | ⟨xs, h⟩ <;> rw [h] <;> exact ⟨_, rfl⟩
  have Hco : ∃ x, pyIter? ((d.get? "colors").getD (PyVal.vlist [])) = some x := by
    rcases hco with h | ⟨xs, h⟩ <;> rw [h] <;> exact ⟨_, rfl⟩
  have Hsi : ∃ x, pyIter? ((d.get? "sizes").getD (PyVal.vlist [])) = some x := by
    rcases hsi with h | ⟨xs, h⟩ <;> rw [h] <;> exact ⟨_, rfl⟩
  have Hta : ∃ x, pyIter? ((d.get? "tags").getD (PyVal.vlist [])) = some x := by
    rcases hta with h | ⟨xs, h⟩ <;> rw [h] <;> exact ⟨_, rfl⟩
  obtain ⟨de, Hde⟩ := Hde
  obtain ⟨pr, Hp⟩ := Hp
  obtain ⟨i1, Him⟩ := Him
  obtain ⟨i2, Hco⟩ := Hco
  obtain ⟨i3, Hsi⟩ := Hsi
  obtain ⟨i4, Hta⟩ := Hta
  have Hr : ∃ x, ratingOf ((d.get? "rating").getD PyVal.vnone) = some x := by
    rcases hr with h | h | ⟨v, q, h, hw⟩
    · rw [h]; exact ⟨_, rfl⟩
    · rw [h]; exact ⟨_, rfl⟩
    · rw [h]
      cases v
      · simp [validOptFloat?] at hw
      all_goals exact ⟨_, hw⟩
  obtain ⟨r, Hr⟩ := Hr
  unfold normalizeDoc_list
  simp only [Doc.getD]
  simp [Ht, Hc, Hde, Hp, Him, Hco, Hsi, Hta, Hr]

/-- Witness for the amended C1 at a concrete minimal record. -/
theorem normalize_succeeds_on_wellformed_witness :
    (normalizeDoc_list
      [("title", PyVal.vstr "t"), ("category", PyVal.vstr "c")]).isSome = true :=
  normalize_succeeds_on_wellformed _ ⟨"t", rfl⟩ (Or.inl rfl) (Or.inl rfl)
    ⟨"c", rfl⟩ (Or.inl rfl) (Or.inl rfl) (Or.inl rfl) (Or.inl rfl) (Or.inl rfl)

/-- Inversion of a successful normalization: the intermediate value of every
field access and the shape of the produced Product. -/
theorem normalizeDoc_list_eq_some (d : Doc) (p : ProductOut)
    (h : normalizeDoc_list d = some p) :
    ∃ title de price category images colors sizes tags rating,
      validStr? ((d.get? "title").getD PyVal.vnone) = some title ∧
      validOptStr? ((d.get? "description").getD PyVal.vnone) = some de ∧
      pyFloat? ((d.get? "price").getD (PyVal.vint 0)) = some price ∧
      validStr? ((d.get? "category").getD PyVal.vnone) = some category ∧
      pyIter? ((d.get? "images").getD (PyVal.vlist [])) = some images ∧
      pyIter? ((d.get? "colors").getD (PyVal.vlist [])) = some colors ∧
      pyIter? ((d.get? "sizes").getD (PyVal.vlist [])) = some sizes ∧
      pyIter? ((d.get? "tags").getD (PyVal.vlist [])) = some tags ∧
      ratingOf ((d.get? "rating").getD PyVal.vnone) = some rating ∧
      p = { id := pyStr ((d.get? "_id").getD PyVal.vnone)
            title := title
            description := de
            price := price
            category := category
            images := images.map pyStr
            colors := colors.map pyStr
            sizes := sizes.map pyStr
            tags := tags.map pyStr
            in_stock := pyBool ((d.get? "in_stock").getD (PyVal.vbool true))
            is_featured := pyBool ((d.get? "is_featured").getD (PyVal.vbool false))
            rating := rating } := by
  unfold normalizeDoc_list at h
  simp only [Doc.getD, bind, Option.bind_eq_some] at h
  obtain ⟨title, hT, de, hDe, price, hP, category, hC, images, hIm,
    colors, hCo, sizes, hSi, tags, hTa, rating, hR, hp⟩ := h
  refine ⟨title, de, price, category, images, colors, sizes, tags, rating,
    hT, hDe, hP, hC, hIm, hCo, hSi, hTa, hR, ?_⟩
  injection hp with hp
  exact hp.symm

/-- A minimal well-formed raw record used by concrete witnesses. -/
def sampleDoc : Doc := [("title", PyVal.vstr "t"), ("category", PyVal.vstr "c")]

/-- The Product that `sampleDoc` normalizes to. -/
def sampleProd : ProductOut :=
  { id := "None", title := "t", description := none, price := 0,
    category := "c", images := [], colors := [], sizes := [], tags := [],
    in_stock := true, is_featured := false, rating := none }

/-- C5: on every successfully normalized record, an absent `price` became 0
and a present one its coerced decimal value; each absent sequence field
became the empty sequence and a present list its element-wise text
rendering; an absent `in_stock` became true; an absent `is_featured` became
false. -/
theorem normalize_defaults (d : Doc) (p : ProductOut)
    (h : normalizeDoc_list d = some p) :
    (d.get? "price" = none → p.price = 0) ∧
    (∀ v q, d.get? "price" = some v → pyFloat? v = some q → p.price = q) ∧
    (d.get? "images" = none → p.images = []) ∧
    (∀ xs, d.get? "images" = some (.vlist xs) → p.images = xs.map pyStr) ∧
    (d.get? "colors" = none → p.colors = []) ∧
    (∀ xs, d.get? "colors" = some (.vlist xs) → p.colors = xs.map pyStr) ∧
    (d.get? "sizes" = none → p.sizes = []) ∧
    (∀ xs, d.get? "sizes" = some (.vlist xs) → p.sizes = xs.map pyStr) ∧
    (d.get? "tags" = none → p.tags = []) ∧
    (∀ xs, d.get? "tags" = some (.vlist xs) → p.tags = xs.map pyStr) ∧
    (d.get? "in_stock" = none → p.in_stock = true) ∧
    (d.get? "is_featured" = none → p.is_featured = false) := by
  obtain ⟨title, de, price, category, images, colors, sizes, tags, rating,
    hT, hDe, hP, hC, hIm, hCo, hSi, hTa, hR, hp⟩ :=
    normalizeDoc_list_eq_some d p h
  subst hp
  refine ⟨?_, ?_, ?_, ?_, ?_, ?_, ?_, ?_, ?_, ?_, ?_, ?_⟩
  · intro hn
    rw [hn] at hP
    simp only [Option.getD_none, pyFloat?] at hP
    cases hP
    simp
  · intro v q hv hq
    rw [hv] at hP
    simp only [Option.getD_some] at hP
    rw [hq] at hP
    cases hP
    rfl
  · intro hn
    rw [hn] at hIm
    simp only [Option.getD_none, pyIter?] at hIm
    cases hIm
    rfl
  · intro xs hx
    rw [hx] at hIm
    simp only [Option.getD_some, pyIter?] at hIm
    cases hIm
    rfl
  · intro hn
    rw [hn] at hCo
    simp only [Option.getD_none, pyIter?] at hCo
    cases hCo
    rfl
  · intro xs hx
    rw [hx] at hCo
    simp only [Option.getD_some, pyIter?] at hCo
    cases hCo
    rfl
  · intro hn
    rw [hn] at hSi
    simp only [Option.getD_none, pyIter?] at hSi
    cases hSi
    rfl
  · intro xs hx
    rw [hx] at hSi
    simp only [Option.getD_some, pyIter?] at hSi
    cases hSi
    rfl
  · intro hn
    rw [hn] at hTa
    simp only [Option.getD_none, pyIter?] at hTa
    cases hTa
    rfl
  · intro xs hx
    rw [hx] at hTa
    simp only [Option.getD_some, pyIter?] at hTa
    cases hTa
    rfl
  · intro hn
    show pyBool ((d.get? "in_stock").getD (PyVal.vbool true)) = true
    rw [hn]
    rfl
  · intro hn
    show pyBool ((d.get? "is_featured").getD (PyVal.vbool false)) = false
    rw [hn]
    rfl

/-- Witness for C5 at a concrete record missing all defaulted fields. -/
theorem normalize_defaults_witness :
    sampleProd.price = 0 ∧ sampleProd.images = [] ∧
    sampleProd.in_stock = true ∧ sampleProd.is_featured = false := by
  have h : normalizeDoc_list sampleDoc = some sampleProd := by decide
  exact ⟨(normalize_defaults sampleDoc sampleProd h).1 rfl,
    (normalize_defaults sampleDoc sampleProd h).2.2.1 rfl,
    (normalize_defaults sampleDoc sampleProd h).2.2.2.2.2.2.2.2.2.2.1 rfl,
    (normalize_defaults sampleDoc sampleProd h).2.2.2.2.2.2.2.2.2.2.2 rfl⟩

/-- C6: on every successfully normalized record, a missing or null `rating`
is reported as absent (not zero), and a present numeric rating is passed
through with its value unchanged. -/
theorem normalize_rating (d : Doc) (p : ProductOut)
    (h : normalizeDoc_list d = some p) :
    ((d.get? "rating" = none ∨ d.get? "rating" = some PyVal.vnone) →
      p.rating = none) ∧
    (∀ q, d.get? "rating" = some (.vfloat q) → p.rating = some q) ∧
    (∀ n, d.get? "rating" = some (.vint n) → p.rating = some (n : ℚ)) := by
  obtain ⟨title, de, price, category, images, colors, sizes, tags, rating,
    hT, hDe, hP, hC, hIm, hCo, hSi, hTa, hR, hp⟩ :=
    normalizeDoc_list_eq_some d p h
  subst hp
  refine ⟨?_, ?_, ?_⟩
  · rintro (hn | hn) <;> rw [hn] at hR <;>
      simp only [Option.getD_none, Option.getD_some, ratingOf] at hR <;>
      (cases hR; rfl)
  · intro q hq
    rw [hq] at hR
    simp only [Option.getD_some, ratingOf, validOptFloat?] at hR
    cases hR
    rfl
  · intro n hn
    rw [hn] at hR
    simp only [Option.getD_some, ratingOf, validOptFloat?] at hR
    cases hR
    rfl

/-- A raw record with a present numeric rating, and its normalization,
used by concrete witnesses. -/
def ratedDoc : Doc :=
  [("title", PyVal.vstr "t"), ("category", PyVal.vstr "c"),
   ("rating", PyVal.vfloat 4.2)]

/-- The Product that `ratedDoc` normalizes to. -/
def ratedProd : ProductOut :=
  { id := "None", title := "t", description := none, price := 0,
    category := "c", images := [], colors := [], sizes := [], tags := [],
    in_stock := true, is_featured := false, rating := some 4.2 }

/-- Witness for C6 at concrete records with and without a rating. -/
theorem normalize_rating_witness :
    ratedProd.rating = some (4.2 : ℚ) ∧ sampleProd.rating = none :=
  ⟨(normalize_rating ratedDoc ratedProd (by rfl)).2.1 4.2 rfl,
   (normalize_rating sampleDoc sampleProd (by rfl)).1 (Or.inl rfl)⟩

/-- C2: seeding an empty collection inserts exactly the three demo records
("Silk Embrace Bra" 69.0/"bras"/featured/4.7, "Velvet Night Set"
89.0/"sets"/featured/4.5, "Everyday Comfort Brief" 18.0/"panties"/not
featured/4.2) and returns all three, normalized, with their freshly
generated identifiers. -/
theorem seed_on_empty (s : Store) (h1 : s.docs = []) (h2 : s.failMsg = none) :
    seed_sample_products s =
      (.ok
        [ { id := toString s.nextId, title := "Silk Embrace Bra",
            description := some "Luxurious silk with delicate lace trim.",
            price := 69.0, category := "bras",
            images := ["https://images.unsplash.com/photo-1541099649105-f69ad21f3246?q=80&w=1200&auto=format&fit=crop"],
            colors := ["black", "blush", "ivory"],
            sizes := ["32B", "34C", "36D"],
            tags := ["silk", "lace", "underwire"],
            in_stock := true, is_featured := true, rating := some 4.7 },
          { id := toString (s.nextId + 1), title := "Velvet Night Set",
            description := some "Two-piece velvet lounge set.",
            price := 89.0, category := "sets",
            images := ["https://images.unsplash.com/photo-1515378791036-0648a3ef77b2?q=80&w=1200&auto=format&fit=crop"],
            colors := ["wine", "emerald"],
            sizes := ["S", "M", "L"],
            tags := ["set", "velvet", "lounge"],
            in_stock := true, is_featured := true, rating := some 4.5 },
          { id := toString (s.nextId + 1 + 1), title := "Everyday Comfort Brief",
            description := some "Breathable cotton mid-rise brief.",
            price := 18.0, category := "panties",
            images := ["https://images.unsplash.com/photo-1516641392179-434d6d130a7b?q=80&w=1200&auto=format&fit=crop"],
            colors := ["nude", "black", "white"],
            sizes := ["S", "M", "L", "XL"],
            tags := ["cotton", "comfort"],
            in_stock := true, is_featured := false, rating := some 4.2 } ],
       { docs := [("_id", PyVal.vid s.nextId) :: demoBra,
                  ("_id", PyVal.vid (s.nextId + 1)) :: demoSet,
                  ("_id", PyVal.vid (s.nextId + 1 + 1)) :: demoBrief],
         nextId := s.nextId + 1 + 1 + 1, failMsg := none }) := by
  obtain ⟨ds, n, fm⟩ := s
  dsimp only at h1 h2 ⊢
  subst h1
  subst h2
  rfl

/-- Witness for C2: seeding the concrete empty store. -/
theorem seed_on_empty_witness :
    seed_sample_products ⟨[], 0, none⟩ =
      (.ok
        [ { id := "0", title := "Silk Embrace Bra",
            description := some "Luxurious silk with delicate lace trim.",
            price := 69.0, category := "bras",
            images := ["https://images.unsplash.com/photo-1541099649105-f69ad21f3246?q=80&w=1200&auto=format&fit=crop"],
            colors := ["black", "blush", "ivory"],
            sizes := ["32B", "34C", "36D"],
            tags := ["silk", "lace", "underwire"],
            in_stock := true, is_featured := true, rating := some 4.7 },
          { id := "1", title := "Velvet Night Set",
            description := some "Two-piece velvet lounge set.",
            price := 89.0, category := "sets",
            images := ["https://images.unsplash.com/photo-1515378791036-0648a3ef77b2?q=80&w=1200&auto=format&fit=crop"],
            colors := ["wine", "emerald"],
            sizes := ["S", "M", "L"],
            tags := ["set", "velvet", "lounge"],
            in_stock := true, is_featured := true, rating := some 4.5 },
          { id := "2", title := "Everyday Comfort Brief",
            description := some "Breathable cotton mid-rise brief.",
            price := 18.0, category := "panties",
            images := ["https://images.unsplash.com/photo-1516641392179-434d6d130a7b?q=80&w=1200&auto=format&fit=crop"],
            colors := ["nude", "black", "white"],
            sizes := ["S", "M", "L", "XL"],
            tags := ["cotton", "comfort"],
            in_stock := true, is_featured := false, rating := some 4.2 } ],
       { docs := [("_id", PyVal.vid 0) :: demoBra,
                  ("_id", PyVal.vid 1) :: demoSet,
                  ("_id", PyVal.vid 2) :: demoBrief],
         nextId := 3, failMsg := none }) :=
  seed_on_empty ⟨[], 0, none⟩ rfl rfl

/-- C3: seeding a non-empty collection performs zero inserts — the store is
returned unchanged — and the response is exactly the conversion of the first
at most 12 pre-existing records in store order. -/
theorem seed_on_nonempty (s : Store) (h1 : s.docs ≠ []) (h2 : s.failMsg = none) :
    (seed_sample_products s).2 = s ∧
    ∀ ps, convertAll normalizeDoc_seed_existing (s.docs.take 12) = some ps →
      (seed_sample_products s).1 = .ok ps ∧ ps.length ≤ 12 := by
  have hfil : ∀ l : List Doc, l.filter (matchesFilter []) = l := fun l =>
    List.filter_eq_self.mpr (fun a _ => rfl)
  obtain ⟨ds, n, fm⟩ := s
  dsimp only at h1 h2 ⊢
  subst h2
  cases ds with
  | nil => exact absurd rfl h1
  | cons d ds =>
    have hseed : seed_sample_products ⟨d :: ds, n, none⟩ =
        ((match convertAll normalizeDoc_seed_existing ((d :: ds).take 12) with
          | some results => (Except.ok results : Except HTTPError (List ProductOut))
          | none => Except.error ⟨500, validationDetail⟩),
         ⟨d :: ds, n, none⟩) := by
      unfold seed_sample_products get_documents
      dsimp only
      rw [hfil]
      rfl
    rw [hseed]
    refine ⟨rfl, ?_⟩
    intro ps hps
    have hlen := convertAll_length normalizeDoc_seed_existing _ ps hps
    constructor
    · dsimp only
      rw [hps]
    · rw [hlen]
      exact List.length_take_le 12 _

/-- Witness for C3: seeding a concrete one-record store changes nothing and
returns the existing record, normalized. -/
theorem seed_on_nonempty_witness :
    (seed_sample_products ⟨[sampleDoc], 5, none⟩).2 = ⟨[sampleDoc], 5, none⟩ ∧
    (seed_sample_products ⟨[sampleDoc], 5, none⟩).1 = .ok [sampleProd] ∧
    ([sampleProd] : List ProductOut).length ≤ 12 := by
  have h := seed_on_nonempty ⟨[sampleDoc], 5, none⟩ (by simp) rfl
  have h2 := h.2 [sampleProd] (by decide)
  exact ⟨h.1, h2.1, h2.2⟩

/-- C7: a creation request whose price is negative fails input validation
(`price: float = Field(..., ge=0)`) and is rejected as a client error
before the store is touched: the store insert is never invoked and the
store is unchanged. -/
theorem create_product_rejects_negative_price (body : Doc) (s : Store)
    (v : PyVal) (q : ℚ) (hv : body.get? "price" = some v)
    (hq : validFloat? v = some q) (hneg : q < 0) :
    create_product body s = (.error ⟨422, validationDetail⟩, s) := by
  have hpf : priceField body = none := by
    unfold priceField
    rw [hv]
    simp [hq, not_le.mpr hneg]
  have hval : validateLingerieProduct body = none := by
    unfold validateLingerieProduct
    rcases hT : reqStrField body "title" with _ | t
    · rfl
    · rcases hD : optStrField body "description" with _ | de
      · rfl
      · rw [hpf]; rfl
  unfold create_product
  rw [hval]

/-- Witness for C7 at the concrete price -1. -/
theorem create_product_rejects_negative_price_witness :
    create_product
      [("title", PyVal.vstr "t"), ("category", PyVal.vstr "c"),
       ("price", PyVal.vfloat (-1))] ⟨[], 0, none⟩ =
      (.error ⟨422, validationDetail⟩, ⟨[], 0, none⟩) :=
  create_product_rejects_negative_price _ _ (PyVal.vfloat (-1)) (-1) rfl rfl
    (by norm_num)

/-- A 60-character store failure message, longer than any truncation point
used in the source (`GET /test` truncates to 50 characters; the product
endpoints do not truncate at all). -/
def longMsg : String :=
  "connection lost while talking to the primary database node!!"

/-- Counterexample to C8: a store failure during a product read surfaces
with its full 60-character description — `list_products` re-raises
`HTTPException(500, str(e))` without truncating, so the claim that the
description is truncated is false. -/
theorem store_error_not_truncated :
    list_products none none ⟨[], 0, some longMsg⟩ = .error ⟨500, longMsg⟩ ∧
    longMsg.length = 60 := by
  exact ⟨rfl, rfl⟩

/-- C8 (amended): a store failure during a product read or write surfaces
as a server error (HTTP 500) carrying the full, untruncated failure
description. -/
theorem store_failure_full_detail (s : Store) (e : String)
    (h : s.failMsg = some e) :
    (∀ category featured,
      list_products category featured s = .error ⟨500, e⟩) ∧
    seed_sample_products s = (.error ⟨500, e⟩, s) ∧
    (∀ body p, validateLingerieProduct body = some p →
      create_product body s = (.error ⟨500, e⟩, s)) := by
  refine ⟨?_, ?_, ?_⟩
  · intro category featured
    unfold list_products get_documents
    rw [h]
  · unfold seed_sample_products get_documents
    rw [h]
  · intro body p hp
    unfold create_product create_document
    rw [hp, h]

/-- Witness for the amended C8 at a concrete failing store. -/
theorem store_failure_full_detail_witness :
    list_products none none ⟨[], 3, some "boom"⟩ = .error ⟨500, "boom"⟩ ∧
    seed_sample_products ⟨[], 3, some "boom"⟩ =
      (.error ⟨500, "boom"⟩, ⟨[], 3, some "boom"⟩) ∧
    create_product
      [("title", PyVal.vstr "t"), ("category", PyVal.vstr "c"),
       ("price", PyVal.vfloat 1)] ⟨[], 3, some "boom"⟩ =
      (.error ⟨500, "boom"⟩, ⟨[], 3, some "boom"⟩) := by
  have h := store_failure_full_detail ⟨[], 3, some "boom"⟩ "boom" rfl
  exact ⟨h.1 none none, h.2.1,
    h.2.2 _ ⟨"t", none, 1, "c", [], [], [], [], true, false, none⟩ (by rfl)⟩

/-- C9: the diagnostic endpoint always returns a payload (it is a total
function of the observable store state) reporting at most 10 collection
names; a raise while listing collections degrades to a descriptive status
string carrying the first 50 characters of the message with an empty
collection list, and an unavailable store degrades to a status string as
well — no store state makes the request fail. -/
theorem test_database_spec (env : TestEnv) :
    (test_database env).backend = "✅ Running" ∧
    (test_database env).collections.length ≤ 10 ∧
    (∀ e, env.listCollections = .error e → env.dbAvailable = true →
      (test_database env).database = "⚠️  Connected but Error: " ++ e.take 50 ∧
      (test_database env).collections = []) ∧
    (env.dbAvailable = false →
      (test_database env).database = "⚠️  Available but not initialized") ∧
    (∀ cs, env.listCollections = .ok cs → env.dbAvailable = true →
      (test_database env).collections = cs.take 10) := by
  obtain ⟨avail, lc, u, nm⟩ := env
  cases avail <;> rcases lc with e | cs <;>
    simp [test_database, List.length_take_le]

/-- Witness for C9 at a concrete raising store. -/
theorem test_database_spec_witness :
    (test_database ⟨true, .error "boom", false, false⟩).database =
      "⚠️  Connected but Error: " ++ ("boom".take 50) ∧
    (test_database ⟨true, .error "boom", false, false⟩).collections.length ≤ 10 := by
  have h := test_database_spec ⟨true, .error "boom", false, false⟩
  exact ⟨(h.2.2.1 "boom" rfl rfl).1, h.2.1⟩
